import Mathlib

/-!
Shallow embedding of the request/response core of the go-instagram client
library (package `instagram`): the response classifier `CheckResponse`, the
transport `Do`, the request builder's query merging (`NewRequest`), the
forwarded-address signature `ComputeXInstaForwardedFor`, the rate-limit
accessor `GetRatelimit`, and the tag endpoint's pre-flight validation
(`validTagName`, `TagsService.RecentMedia`).

Conventions of the embedding:
* HTTP response bodies are modelled by their JSON parse status (`JsonDoc`):
  Go's `encoding/json.Unmarshal` first validates the whole input and leaves
  the target untouched when the input is empty or malformed, so the byte-level
  content of an unparseable body is irrelevant to the functions modelled here.
* JSON numbers are modelled as integers; the bodies relevant to the claims
  carry only integral numbers (a fractional number fails to decode into an
  `int` field and leaves the zero value, exactly like any other type
  mismatch, which the model folds into the catch-all cases).
* Machine integers (`int` on a 64-bit platform) are modelled as `Int` with
  explicit range handling where the source's behaviour depends on it
  (`strconv.Atoi`).
* Reading an in-memory response body never fails, so `ioutil.ReadAll`'s
  error path is not modelled.
-/

namespace Instagram

/-- JSON values, as decoded by `encoding/json`. Object fields are kept in
document order; Go's decoder processes fields in order, so a duplicated key
is overwritten by the later occurrence (see `jsonLookup`). -/
inductive JsonValue where
  | null
  | bool (b : Bool)
  | num (n : Int)
  | str (s : String)
  | arr (elems : List JsonValue)
  | obj (fields : List (String × JsonValue))

/-- A response body, abstracted to its JSON parse status.
`empty` is a zero-length body; `malformed` is a non-empty body that is not
valid JSON (`json.Unmarshal` and `json.Decoder.Decode` report an error and
leave the decode target untouched in both cases); `value v` is a body that
parses as the JSON value `v`. -/
inductive JsonDoc where
  | empty
  | malformed (raw : String)
  | value (v : JsonValue)

/-- Field lookup in a decoded JSON object. Go's decoder assigns fields in
document order, so the last occurrence of a duplicated key wins. -/
def jsonLookup (fields : List (String × JsonValue)) (key : String) : Option JsonValue :=
  fields.foldl (fun acc p => if p.1 = key then some p.2 else acc) none

/-- Decoding a JSON object field into a Go `string` struct field: a missing
key or a non-string value leaves the zero value `""`. -/
def jsonStrField (fields : List (String × JsonValue)) (key : String) : String :=
  match jsonLookup fields key with
  | some (.str s) => s
  | _ => ""

/-- Decoding a JSON object field into a Go `int` struct field: a missing key
or a non-number value leaves the zero value `0`. -/
def jsonIntField (fields : List (String × JsonValue)) (key : String) : Int :=
  match jsonLookup fields key with
  | some (.num n) => n
  | _ => 0

/-- `ResponseMeta` (realtime.go): `error_type`, `code`, `error_message`,
all `omitempty`. `InstagramError` is declared in Go as
`type InstagramError ResponseMeta` — same fields, so it is an abbreviation
here. -/
structure ResponseMeta where
  ErrorType : String := ""
  Code : Int := 0
  ErrorMessage : String := ""
deriving DecidableEq

abbrev InstagramError := ResponseMeta

/-- `ResponsePagination` (realtime.go): `next_url`, `next_max_id`. -/
structure ResponsePagination where
  NextURL : String := ""
  NextMaxID : String := ""
deriving DecidableEq

/-- `Ratelimit` (realtime.go): `Limit` and `Remaining`, Go `int` fields. -/
structure Ratelimit where
  Limit : Int := 0
  Remaining : Int := 0
deriving DecidableEq

/-- `json.Unmarshal(data, &InstagramError{})` applied to a parsed JSON value:
an object fills the three tagged fields (missing/mismatched fields keep their
zero values); any other JSON value is a type error that leaves the whole
struct at its zero value. -/
def unmarshalInstagramErrorValue (v : JsonValue) : InstagramError :=
  match v with
  | .obj fs =>
    { ErrorType := jsonStrField fs "error_type"
      Code := jsonIntField fs "code"
      ErrorMessage := jsonStrField fs "error_message" }
  | _ => {}

/-- `json.Unmarshal(data, &InstagramError{})` on a raw body: an empty or
malformed body leaves the zero value (the unmarshal error is discarded by
`CheckResponse`). -/
def unmarshalInstagramError (d : JsonDoc) : InstagramError :=
  match d with
  | .value v => unmarshalInstagramErrorValue v
  | _ => {}

/-- The fallback in `CheckResponse`: `temp := make(map[string]InstagramError);
json.Unmarshal(data, &temp); meta := temp["meta"]`. A body that is not a
JSON object leaves `temp` empty, and a missing `"meta"` key makes the map
index return the zero value. A `"meta"` value that is not an object is a
type error for that entry and stores the zero value under the key. -/
def unmarshalMetaFromMap (d : JsonDoc) : InstagramError :=
  match d with
  | .value (.obj fs) =>
    match jsonLookup fs "meta" with
    | some v => unmarshalInstagramErrorValue v
    | none => {}
  | _ => {}

/-- In `CheckResponse`, `data` is the slice returned by
`ioutil.ReadAll(r.Body)`. On a successful read, `ReadAll` always returns a
non-nil (possibly zero-length) slice — it returns the bytes of a
preallocated buffer — so the Go test `data != nil` is true for every body,
including an empty one. -/
def dataIsNilAfterReadAll : Bool := false

/-- `CheckResponse` (realtime.go lines 414-474), as a function of the
response's status code and the parse status of its body. Returns `none`
where the Go function returns a nil error. Every non-nil branch of the Go
function returns a non-nil `*InstagramError` pointer (even when unmarshaling
failed and left the zero value), which is a non-nil `error` interface value,
hence `some` here. -/
def CheckResponse (statusCode : Nat) (body : JsonDoc) : Option InstagramError :=
  if statusCode = 200 then
    none
  else if statusCode = 403 then
    some (unmarshalInstagramError body)
  else if statusCode = 429 then
    some (unmarshalInstagramError body)
  else if statusCode = 500 then
    some { ErrorType := "Internal Server Error", Code := 500
           ErrorMessage := "Oops, an error occurred." }
  else if dataIsNilAfterReadAll then
    none
  else
    let e := unmarshalInstagramError body
    if e ≠ ({} : InstagramError) then some e
    else some (unmarshalMetaFromMap body)

/-- An HTTP response as seen by this client: status code, headers
(canonicalized keys, first value returned by `Header.Get`), body. -/
structure HttpResp where
  StatusCode : Nat
  Header : List (String × String) := []
  Body : JsonDoc

/-- `http.Header.Get`: first value stored under the key, `""` when absent. -/
def headerGet : List (String × String) → String → String
  | [], _ => ""
  | p :: rest, key => if p.1 = key then p.2 else headerGet rest key

/-- Decoding the `"meta"` field of the envelope into the `*ResponseMeta`
pointer field of `Response`: absent from the decode when the value is not an
object (`null` leaves the nil pointer; a mismatch leaves the field as-is,
which is nil for a fresh `Response`). -/
def decodeMetaField (v : JsonValue) : Option ResponseMeta :=
  match v with
  | .obj fs =>
    some { ErrorType := jsonStrField fs "error_type"
           Code := jsonIntField fs "code"
           ErrorMessage := jsonStrField fs "error_message" }
  | _ => none

/-- Decoding the `"pagination"` field of the envelope into the
`*ResponsePagination` pointer field of `Response`. -/
def decodePaginationField (v : JsonValue) : Option ResponsePagination :=
  match v with
  | .obj fs =>
    some { NextURL := jsonStrField fs "next_url"
           NextMaxID := jsonStrField fs "next_max_id" }
  | _ => none

/-- The `Response` envelope built by `Do`: the raw `*http.Response` plus the
`meta` and `pagination` fields decoded from the body. The opaque `Data`
payload slot (an `interface{}` typed by the caller) is not modelled; no
claim inspects it. -/
structure StoredResponse where
  Response : HttpResp
  Meta : Option ResponseMeta := none
  Pagination : Option ResponsePagination := none

/-- `json.NewDecoder(resp.Body).Decode(r)` filling the envelope fields of a
fresh `Response`. An empty or malformed body leaves every field nil; a JSON
value that is not an object likewise sets nothing. -/
def decodeEnvelope (resp : HttpResp) : StoredResponse :=
  match resp.Body with
  | .value (.obj fs) =>
    { Response := resp
      Meta := (jsonLookup fs "meta").bind decodeMetaField
      Pagination := (jsonLookup fs "pagination").bind decodePaginationField }
  | _ => { Response := resp }

/-- The error returned by `json.NewDecoder(..).Decode`: `io.EOF` on an empty
body, a syntax error on a malformed one, `nil` once a JSON value was read.
(Field-level type mismatches inside a valid document can also yield an
error; no claim depends on that case and it is not modelled.) -/
def jsonDecodeError (d : JsonDoc) : Option String :=
  match d with
  | .empty => some "EOF"
  | .malformed raw => some raw
  | .value _ => none

/-- Error values surfaced by `Do`: the underlying transport's error, the
non-nil error returned by `CheckResponse`, or a JSON decode error. -/
inductive GoError where
  | transportFailure (msg : String)
  | upstream (e : InstagramError)
  | decodeFailure (msg : String)

/-- The `Client` fields read by the modelled operations. `BaseURL` carries no
query string (the constant `https://api.instagram.com/v1/`), `UserAgent` and
the service pointers are irrelevant to the claims and omitted. -/
structure Client where
  ClientID : String := ""
  ClientSecret : String := ""
  AccessToken : String := ""
  XInstaForwardedFor : String := ""
  Response : Option StoredResponse := none

/-- The observable outcome of one `Do` call: the returned `*http.Response`
(`none` when the transport itself failed), the returned error, whether
payload decoding was attempted, and the value of the client's `Response`
slot after the call. -/
structure DoOutcome where
  resp : Option HttpResp
  err : Option GoError
  decodedPayload : Bool
  Response : Option StoredResponse

/-- `Client.Do` (realtime.go lines 355-375). `transport` is the result of
`c.client.Do(req)`; `v` records whether the caller passed a non-nil decode
target. On transport failure `Do` returns `(nil, err)`; on a `CheckResponse`
error it returns `(resp, err)` without decoding; on status 200 with a
non-nil target it decodes the body into a fresh envelope and stores it in
`c.Response` (unconditionally, even when decoding failed); with a nil target
it neither decodes nor touches `c.Response`. -/
def Do (c : Client) (transport : Except String HttpResp) (v : Bool) : DoOutcome :=
  match transport with
  | .error msg =>
    { resp := none, err := some (.transportFailure msg)
      decodedPayload := false, Response := c.Response }
  | .ok resp =>
    match CheckResponse resp.StatusCode resp.Body with
    | some e =>
      { resp := some resp, err := some (.upstream e)
        decodedPayload := false, Response := c.Response }
    | none =>
      if v then
        { resp := some resp
          err := (jsonDecodeError resp.Body).map GoError.decodeFailure
          decodedPayload := true
          Response := some (decodeEnvelope resp) }
      else
        { resp := some resp, err := none
          decodedPayload := false, Response := c.Response }

/-- `url.Values`: a map from query-parameter keys to lists of values,
modelled as an association list with the map observations `valuesLookup`
(map indexing) and `valuesGet` (`Values.Get`). -/
abbrev Values := List (String × List String)

/-- Map indexing `v[key]`. -/
def valuesLookup : Values → String → Option (List String)
  | [], _ => none
  | p :: rest, key => if p.1 = key then some p.2 else valuesLookup rest key

/-- `url.Values.Get`: `""` when the key is absent or has no values, else the
first value. -/
def valuesGet (q : Values) (key : String) : String :=
  match valuesLookup q key with
  | some (v :: _) => v
  | _ => ""

/-- `url.Values.Set`: `v[key] = []string{value}` — replace the binding for
the key, or add one when absent. -/
def valuesSet : Values → String → String → Values
  | [], key, value => [(key, [value])]
  | p :: rest, key, value =>
    if p.1 = key then (key, [value]) :: rest else p :: valuesSet rest key value

/-- One credential rule of `NewRequest`: `if cred != "" && q.Get(key) == ""
{ q.Set(key, cred) }`. Each of the three Go `if` blocks is one instance of
this with its key and credential. -/
def mergeParam (key cred : String) (q : Values) : Values :=
  if cred ≠ "" ∧ valuesGet q key = "" then valuesSet q key cred else q

/-- The credential-merging step of `NewRequest` (realtime.go lines 322-333),
as a function of the query of the resolved URL: the `access_token`,
`client_id` and `client_secret` rules applied in source order. The base URL
carries no query string, and RFC 3986 reference resolution takes the query
of the (caller-supplied) reference, so the input here is exactly the query
the caller put on `urlStr`. -/
def newRequestQuery (c : Client) (q : Values) : Values :=
  mergeParam "client_secret" c.ClientSecret
    (mergeParam "client_id" c.ClientID
      (mergeParam "access_token" c.AccessToken q))

/-- The two error kinds of `strconv`: `ErrSyntax` and `ErrRange`. -/
inductive NumError where
  | invalidNum
  | outOfRange
deriving DecidableEq

/-- `strconv.Atoi` = `strconv.ParseInt(s, 10, 0)` with `int` 64 bits wide:
optional sign, then at least one ASCII digit and nothing else; on a syntax
error returns `(0, ErrSyntax)`; on overflow returns the clamped
`math.MaxInt64`/`math.MinInt64` with `ErrRange`. -/
def atoi (s : String) : Int × Option NumError :=
  match s.data with
  | [] => (0, some .invalidNum)
  | c :: cs =>
    let digits := if c = '-' ∨ c = '+' then cs else c :: cs
    if digits.isEmpty then (0, some .invalidNum)
    else if digits.all Char.isDigit then
      let n : Nat := digits.foldl (fun a d => a * 10 + (d.toNat - 48)) 0
      if c = '-' then
        if n > 9223372036854775808 then (-9223372036854775808, some .outOfRange)
        else (-(n : Int), none)
      else
        if n > 9223372036854775807 then (9223372036854775807, some .outOfRange)
        else ((n : Int), none)
    else (0, some .invalidNum)

/-- A string accepted by `strconv.Atoi`'s grammar: an optional sign followed
by one or more ASCII digits and nothing else (range aside). Used to state
the rate-limit claim without restating `atoi`. -/
def isNumericLiteral (s : String) : Bool :=
  match s.data with
  | [] => false
  | c :: cs =>
    let digits := if c = '-' ∨ c = '+' then cs else c :: cs
    !digits.isEmpty && digits.all Char.isDigit

/-- `Response.GetRatelimit` (realtime.go lines 230-245): parse the
`X-Ratelimit-Limit` header, return early on error, else parse
`X-Ratelimit-Remaining`; the Go function returns the pair `(rl, err)`. -/
def GetRatelimit (r : StoredResponse) : Ratelimit × Option NumError :=
  let l := atoi (headerGet r.Response.Header "X-Ratelimit-Limit")
  match l.2 with
  | some e => ({ Limit := l.1, Remaining := 0 }, some e)
  | none =>
    let rem := atoi (headerGet r.Response.Header "X-Ratelimit-Remaining")
    ({ Limit := l.1, Remaining := rem.1 }, rem.2)

/-- A word character in Go's RE2 syntax: `\w` is `[0-9A-Za-z_]` (Perl
character classes are ASCII in `regexp`), and `\W` is its complement.
`Char.isAlphanum` is exactly ASCII `[0-9A-Za-z]`. -/
def isWordChar (c : Char) : Bool := c.isAlphanum || c = '_'

/-- `validTagName` (tags.go lines 126-138): compile `\W` (which never fails
for this constant pattern, so the error result is always nil) and reject the
tag name exactly when some character matches `\W`, i.e. is a non-word
character. -/
def validTagName (tagName : String) : Bool × Option String :=
  (!(tagName.data.any (fun c => !isWordChar c)), none)

/-- `Media` is defined in media.go (not before us); its shape is irrelevant
to the claims, which only mention the empty media list. -/
structure Media where

/-- The fields of `Parameters` read by `TagsService.RecentMedia`. The
remaining fields (timestamps and float coordinates) are not referenced by
any modelled code path. -/
structure Parameters where
  Count : Nat := 0
  MinID : String := ""
  MaxID : String := ""

/-- `url.Values.Encode` for the parameter sets built by `RecentMedia`:
`k=v` pairs joined by `&`, keys in sorted order. (Percent-escaping is not
modelled; no claim depends on it.) -/
def encodeParams (ps : List (String × String)) : String :=
  String.intercalate "&" (ps.map (fun p => p.1 ++ "=" ++ p.2))

/-- The URL string built by `TagsService.RecentMedia` once the tag name
passed validation: `tags/<name>/media/recent`, plus, when options were
passed, `?` and the encoded non-zero options. `Encode` emits keys sorted:
`count` < `max_id` < `min_id`. -/
def recentMediaURL (tagName : String) (opt : Option Parameters) : String :=
  let u := "tags/" ++ tagName ++ "/media/recent"
  match opt with
  | none => u
  | some o =>
    let ps : List (String × String) :=
      (if o.Count ≠ 0 then [("count", toString o.Count)] else []) ++
      (if o.MaxID ≠ "" then [("max_id", o.MaxID)] else []) ++
      (if o.MinID ≠ "" then [("min_id", o.MinID)] else [])
    u ++ "?" ++ encodeParams ps

/-- Where `TagsService.RecentMedia` (tags.go lines 48-76) gets to before any
request exists: either it returned early (with the media list, pagination
pointer and error it returned — `Option` distinguishes Go's nil slice and
nil pointer from allocated empty values), or it proceeded to build the
request for the given URL. -/
inductive RecentMediaStep where
  | earlyReturn (media : Option (List Media)) (page : Option ResponsePagination)
      (err : Option String)
  | request (u : String)

/-- The pre-flight portion of `TagsService.RecentMedia`: propagate a
`validTagName` error (`nil, nil, err`); short-circuit an invalid name to
`[]Media{}, &ResponsePagination{}, nil`; otherwise proceed to build the
request URL. -/
def recentMediaPreflight (tagName : String) (opt : Option Parameters) : RecentMediaStep :=
  match (validTagName tagName).2 with
  | some e => .earlyReturn none none (some e)
  | none =>
    if !(validTagName tagName).1 then .earlyReturn (some []) (some {}) none
    else .request (recentMediaURL tagName opt)

/-- UTF-8 encoding of one character, as `[]byte(string)` produces in Go. -/
def utf8EncodeChar (c : Char) : List Nat :=
  let n := c.toNat
  if n < 0x80 then [n]
  else if n < 0x800 then [0xC0 + n / 64, 0x80 + n % 64]
  else if n < 0x10000 then [0xE0 + n / 4096, 0x80 + n / 64 % 64, 0x80 + n % 64]
  else [0xF0 + n / 262144, 0x80 + n / 4096 % 64, 0x80 + n / 64 % 64, 0x80 + n % 64]

/-- `[]byte(s)`: the UTF-8 bytes of a string. -/
def strToBytes (s : String) : List Nat :=
  (s.data.map utf8EncodeChar).flatten

/-- Right rotation of a 32-bit word (words kept as `Nat` below `2^32`). -/
def rotr32 (x n : Nat) : Nat :=
  (x >>> n ||| x <<< (32 - n)) % 4294967296

/-- SHA-256 big sigma-0. -/
def bsig0 (x : Nat) : Nat := rotr32 x 2 ^^^ rotr32 x 13 ^^^ rotr32 x 22

/-- SHA-256 big sigma-1. -/
def bsig1 (x : Nat) : Nat := rotr32 x 6 ^^^ rotr32 x 11 ^^^ rotr32 x 25

/-- SHA-256 small sigma-0. -/
def ssig0 (x : Nat) : Nat := rotr32 x 7 ^^^ rotr32 x 18 ^^^ (x >>> 3)

/-- SHA-256 small sigma-1. -/
def ssig1 (x : Nat) : Nat := rotr32 x 17 ^^^ rotr32 x 19 ^^^ (x >>> 10)

/-- SHA-256 choice function. -/
def chFn (x y z : Nat) : Nat := (x &&& y) ^^^ ((x ^^^ 4294967295) &&& z)

/-- SHA-256 majority function. -/
def majFn (x y z : Nat) : Nat := (x &&& y) ^^^ (x &&& z) ^^^ (y &&& z)

/-- The 64 SHA-256 round constants (FIPS 180-4 section 4.2.2, written as
decimal naturals). -/
def k256 : List Nat :=
  [1116352408, 1899447441, 3049323471, 3921009573, 961987163,
   1508970993, 2453635748, 2870763221, 3624381080, 310598401,
   607225278, 1426881987, 1925078388, 2162078206, 2614888103,
   3248222580, 3835390401, 4022224774, 264347078, 604807628,
   770255983, 1249150122, 1555081692, 1996064986, 2554220882,
   2821834349, 2952996808, 3210313671, 3336571891, 3584528711,
   113926993, 338241895, 666307205, 773529912, 1294757372,
   1396182291, 1695183700, 1986661051, 2177026350, 2456956037,
   2730485921, 2820302411, 3259730800, 3345764771, 3516065817,
   3600352804, 4094571909, 275423344, 430227734, 506948616,
   659060556, 883997877, 958139571, 1322822218, 1537002063,
   1747873779, 1955562222, 2024104815, 2227730452, 2361852424,
   2428436474, 2756734187, 3204031479, 3329325298]

/-- The SHA-256 initial hash value (FIPS 180-4 section 5.3.3, written as
decimal naturals). -/
def h256init : List Nat :=
  [1779033703, 3144134277, 1013904242, 2773480762,
   1359893119, 2600822924, 528734635, 1541459225]

/-- Big-endian 32-bit words from a byte list (16 words from a 64-byte block). -/
def bytesToWords : List Nat → List Nat
  | b0 :: b1 :: b2 :: b3 :: rest =>
    (((b0 * 256 + b1) * 256 + b2) * 256 + b3) :: bytesToWords rest
  | _ => []

/-- Extend the 16 block words to the 64-entry message schedule. -/
def msgSchedule (w16 : List Nat) : List Nat :=
  (List.range 48).foldl
    (fun ws _ =>
      let n := ws.length
      ws ++ [(ssig1 (ws.getD (n - 2) 0) + ws.getD (n - 7) 0 +
              ssig0 (ws.getD (n - 15) 0) + ws.getD (n - 16) 0) % 4294967296])
    w16

/-- The eight SHA-256 working variables. -/
structure Sha256State where
  a : Nat
  b : Nat
  c : Nat
  d : Nat
  e : Nat
  f : Nat
  g : Nat
  h : Nat

/-- One SHA-256 round, consuming a (round constant, schedule word) pair. -/
def sha256Round (s : Sha256State) (kw : Nat × Nat) : Sha256State :=
  let t1 := (s.h + bsig1 s.e + chFn s.e s.f s.g + kw.1 + kw.2) % 4294967296
  let t2 := (bsig0 s.a + majFn s.a s.b s.c) % 4294967296
  { a := (t1 + t2) % 4294967296, b := s.a, c := s.b, d := s.c
    e := (s.d + t1) % 4294967296, f := s.e, g := s.f, h := s.g }

/-- Compress one 64-byte block into the running hash (a list of 8 words). -/
def sha256Block (hs : List Nat) (block : List Nat) : List Nat :=
  let w := msgSchedule (bytesToWords block)
  let s0 : Sha256State :=
    { a := hs.getD 0 0, b := hs.getD 1 0, c := hs.getD 2 0, d := hs.getD 3 0
      e := hs.getD 4 0, f := hs.getD 5 0, g := hs.getD 6 0, h := hs.getD 7 0 }
  let s := (k256.zip w).foldl sha256Round s0
  [(s0.a + s.a) % 4294967296, (s0.b + s.b) % 4294967296,
   (s0.c + s.c) % 4294967296, (s0.d + s.d) % 4294967296,
   (s0.e + s.e) % 4294967296, (s0.f + s.f) % 4294967296,
   (s0.g + s.g) % 4294967296, (s0.h + s.h) % 4294967296]

/-- SHA-256 padding: a `0x80` byte, zeros to 56 mod 64, then the bit length
as a big-endian 64-bit integer. -/
def sha256Pad (msg : List Nat) : List Nat :=
  let L := msg.length
  let k := (56 + 64 - (L + 1) % 64) % 64
  let bitLen := (8 * L) % 18446744073709551616
  msg ++ [0x80] ++ List.replicate k 0 ++
    [bitLen >>> 56 % 256, bitLen >>> 48 % 256, bitLen >>> 40 % 256,
     bitLen >>> 32 % 256, bitLen >>> 24 % 256, bitLen >>> 16 % 256,
     bitLen >>> 8 % 256, bitLen % 256]

/-- Split a byte list into 64-byte blocks. -/
def chunks64 (l : List Nat) : List (List Nat) :=
  if h : l = [] then []
  else l.take 64 :: chunks64 (l.drop 64)
termination_by l.length
decreasing_by
  simp [List.length_drop]
  exact Nat.pos_of_ne_zero (fun hz => h (List.eq_nil_of_length_eq_zero hz))

/-- Big-endian bytes of one 32-bit word. -/
def word32ToBytes (w : Nat) : List Nat :=
  [w / 16777216 % 256, w / 65536 % 256, w / 256 % 256, w % 256]

/-- SHA-256 of a byte list (`crypto/sha256`), a 32-byte digest. -/
def sha256 (msg : List Nat) : List Nat :=
  let hs := (chunks64 (sha256Pad msg)).foldl sha256Block h256init
  (hs.map word32ToBytes).flatten

/-- HMAC key preparation, first step (`crypto/hmac`): a key longer than the
64-byte block is replaced by its hash. -/
def hmacKeyBase (key : List Nat) : List Nat :=
  if key.length > 64 then sha256 key else key

/-- HMAC key preparation, second step: zero-pad the key to the block size. -/
def hmacPaddedKey (key : List Nat) : List Nat :=
  hmacKeyBase key ++ List.replicate (64 - (hmacKeyBase key).length) 0

/-- HMAC-SHA-256 (`crypto/hmac` with `sha256.New`):
digest = H((k xor opad) ++ H((k xor ipad) ++ msg)). -/
def hmacSha256 (key msg : List Nat) : List Nat :=
  sha256 ((hmacPaddedKey key).map (fun b => b ^^^ 0x5c) ++
    sha256 ((hmacPaddedKey key).map (fun b => b ^^^ 0x36) ++ msg))

/-- One lowercase hexadecimal digit, as `encoding/hex` emits. -/
def hexDigit (n : Nat) : Char :=
  Char.ofNat (if n < 10 then 48 + n else 87 + n)

/-- `hex.EncodeToString`: two lowercase hex digits per byte. -/
def hexEncodeToString (bs : List Nat) : String :=
  String.mk ((bs.map (fun b => [hexDigit (b / 16), hexDigit (b % 16)])).flatten)

/-- `Client.ComputeXInstaForwardedFor` (realtime.go lines 301-310): empty
when no forwarded address is configured, else
`<address>|<hex(HMAC-SHA256(secret, address))>`. -/
def ComputeXInstaForwardedFor (c : Client) : String :=
  if c.XInstaForwardedFor = "" then ""
  else
    c.XInstaForwardedFor ++ ("|" ++
      hexEncodeToString
        (hmacSha256 (strToBytes c.ClientSecret) (strToBytes c.XInstaForwardedFor)))

/-- The spec's example structured-error body
`{"error_type":"OAuthException","code":400,"error_message":"bad"}`. -/
def oauthBareBody : JsonValue :=
  .obj [("error_type", .str "OAuthException"), ("code", .num 400),
        ("error_message", .str "bad")]

/-- The spec's example nested body `{"meta": {...}}`. -/
def oauthMetaBody : JsonValue := .obj [("meta", oauthBareBody)]

/-- The structured error both example bodies should produce. -/
def oauthError : InstagramError :=
  { ErrorType := "OAuthException", Code := 400, ErrorMessage := "bad" }

/-- A client whose caller-supplied URL already carries `access_token` with an
empty value. -/
def c3Client : Client := { AccessToken := "token123" }

/-- The parsed query of a caller URL such as `media?access_token=`:
the parameter is present, with the single value `""`. -/
def c3Query : Values := [("access_token", [""])]

/-- A client with a one-byte application secret. -/
def c5a : Client := { ClientSecret := "s", XInstaForwardedFor := "1.2.3.4" }

/-- The same client except the secret carries one extra zero byte. -/
def c5b : Client :=
  { ClientSecret := String.mk ['s', Char.ofNat 0], XInstaForwardedFor := "1.2.3.4" }

/-! ## Helper lemmas -/

theorem checkResponse_eq_none_iff (status : Nat) (body : JsonDoc) :
    CheckResponse status body = none ↔ status = 200 := by
  unfold CheckResponse
  split_ifs with h1 h2 h3 h4 h5 <;>
    (try simp_all [dataIsNilAfterReadAll]) <;> (split <;> simp_all)

/-! ## Claim theorems -/

/-- C1: `CheckResponse` reports success exactly for status 200 (it returns
no error for 200 and a non-nil error for every other status, including
redirects and non-200 2xx codes), and for every non-200 response `Do`
returns that error without attempting payload decoding and leaves the
stored response slot alone. -/
theorem success_strictly_status200 :
    (∀ (status : Nat) (body : JsonDoc), CheckResponse status body = none ↔ status = 200) ∧
    (∀ (c : Client) (resp : HttpResp) (v : Bool), resp.StatusCode ≠ 200 →
      ∃ e, CheckResponse resp.StatusCode resp.Body = some e ∧
        Do c (.ok resp) v =
          { resp := some resp, err := some (.upstream e), decodedPayload := false,
            Response := c.Response }) := by
  refine ⟨checkResponse_eq_none_iff, ?_⟩
  intro c resp v h
  rcases hcr : CheckResponse resp.StatusCode resp.Body with _ | e
  · exact absurd ((checkResponse_eq_none_iff _ _).mp hcr) h
  · exact ⟨e, rfl, by simp [Do, hcr]⟩

theorem success_strictly_status200_witness :
    (CheckResponse 404 JsonDoc.empty = none ↔ (404 : Nat) = 200) ∧
    (∃ e, CheckResponse 404 JsonDoc.empty = some e ∧
      Do {} (.ok ⟨404, [], JsonDoc.empty⟩) true =
        { resp := some ⟨404, [], JsonDoc.empty⟩, err := some (.upstream e),
          decodedPayload := false, Response := none }) :=
  ⟨success_strictly_status200.1 404 JsonDoc.empty,
   success_strictly_status200.2 {} ⟨404, [], JsonDoc.empty⟩ true (by decide)⟩

/-- C4: a status-500 response yields the fixed synthesized structured error
regardless of body content. -/
theorem status500_fixed_error (body : JsonDoc) :
    CheckResponse 500 body =
      some { ErrorType := "Internal Server Error", Code := 500,
             ErrorMessage := "Oops, an error occurred." } := rfl

/-- C2: for a non-200 status other than 403, 429 and 500 with a non-empty
body, `CheckResponse` returns the bare decoding when some field of it is
non-zero, and exactly when every field is zero it returns the value under
key `meta` of the map decoding; the bare and `meta`-wrapped example bodies
yield the identical structured error. -/
theorem general_error_fallback (status : Nat) (body : JsonDoc)
    (h200 : status ≠ 200) (h403 : status ≠ 403) (h429 : status ≠ 429)
    (h500 : status ≠ 500) (hbody : body ≠ JsonDoc.empty) :
    (unmarshalInstagramError body ≠ ({} : InstagramError) →
      CheckResponse status body = some (unmarshalInstagramError body)) ∧
    (unmarshalInstagramError body = ({} : InstagramError) →
      CheckResponse status body = some (unmarshalMetaFromMap body)) ∧
    CheckResponse status (.value oauthBareBody) = some oauthError ∧
    CheckResponse status (.value oauthMetaBody) = some oauthError := by
  refine ⟨?_, ?_, ?_, ?_⟩
  · intro hne
    unfold CheckResponse
    rw [if_neg h200, if_neg h403, if_neg h429, if_neg h500]
    simp [dataIsNilAfterReadAll, hne]
  · intro hz
    unfold CheckResponse
    rw [if_neg h200, if_neg h403, if_neg h429, if_neg h500]
    simp [dataIsNilAfterReadAll, hz]
  · unfold CheckResponse
    rw [if_neg h200, if_neg h403, if_neg h429, if_neg h500]
    decide
  · unfold CheckResponse
    rw [if_neg h200, if_neg h403, if_neg h429, if_neg h500]
    decide

theorem general_error_fallback_witness :
    CheckResponse 400 (.value oauthBareBody) = some oauthError ∧
    CheckResponse 400 (.value oauthMetaBody) = some oauthError :=
  ⟨(general_error_fallback 400 (.value oauthBareBody) (by decide) (by decide)
      (by decide) (by decide) (fun h => JsonDoc.noConfusion h)).2.2.1,
   (general_error_fallback 400 (.value oauthMetaBody) (by decide) (by decide)
      (by decide) (by decide) (fun h => JsonDoc.noConfusion h)).2.2.2⟩

/-- C6 counterexample: a 404 response with an empty body makes
`CheckResponse` return a (zero-valued) structured error, not no error —
`ReadAll` never returns a nil slice, so the `data != nil` general branch
runs and its map fallback returns a pointer to the zero value. -/
theorem emptybody_counterexample :
    CheckResponse 404 JsonDoc.empty = some ({} : InstagramError) ∧
    CheckResponse 404 JsonDoc.empty ≠ none := by decide

/-- C6 amended: for every non-200 status other than 403, 429 and 500, an
empty body makes the error classifier return the structured error with all
fields zero (empty kind, code 0, empty message) — not no error; the `nil`
branch of the source is unreachable because `ioutil.ReadAll` never returns
a nil slice. -/
theorem emptybody_zero_error (status : Nat) (h200 : status ≠ 200)
    (h403 : status ≠ 403) (h429 : status ≠ 429) (h500 : status ≠ 500) :
    CheckResponse status JsonDoc.empty = some ({} : InstagramError) := by
  unfold CheckResponse
  rw [if_neg h200, if_neg h403, if_neg h429, if_neg h500]
  decide

theorem emptybody_zero_error_witness :
    CheckResponse 404 JsonDoc.empty = some ({} : InstagramError) :=
  emptybody_zero_error 404 (by decide) (by decide) (by decide) (by decide)

/-- C7 counterexample: `"a_b"` contains the non-alphanumeric character `_`
yet `validTagName` accepts it — the regex `\W` treats `_` as a word
character, so the function is not "accept iff no non-alphanumeric
character". -/
theorem validTagName_counterexample :
    (validTagName "a_b").1 = true ∧
    ('_' ∈ "a_b".data ∧ ('_'.isAlphanum = false)) := by decide

/-- C7 amended: `validTagName` accepts a string iff every character is an
ASCII letter, an ASCII digit, or an underscore (Go's `\w` word characters)
— underscore is additionally allowed relative to the claim; the spec's
listed examples behave as stated. -/
theorem validTagName_word_chars :
    (∀ s : String,
      (validTagName s).1 = true ↔ ∀ c ∈ s.data, (c.isAlphanum || c = '_') = true) ∧
    (validTagName "nature").1 = true ∧ (validTagName "travel2024").1 = true ∧
    (validTagName "na-ture").1 = false ∧ (validTagName "travel 2024").1 = false ∧
    (validTagName "#tag").1 = false := by
  refine ⟨?_, by decide, by decide, by decide, by decide, by decide⟩
  intro s
  simp only [validTagName, isWordChar, Bool.not_eq_true', List.any_eq_false,
    Bool.not_eq_false, Bool.or_eq_true, decide_eq_true_eq]

theorem validTagName_word_chars_witness :
    (validTagName "nature").1 = true :=
  (validTagName_word_chars.1 "nature").mpr (by decide)

/-- C9: whenever the tag-name validator rejects the name,
`TagsService.RecentMedia` returns early — before any request is built —
with an allocated empty media list, an allocated zero pagination value, and
a nil error. -/
theorem recentMedia_shortCircuit (tagName : String) (opt : Option Parameters)
    (h : (validTagName tagName).1 = false) :
    recentMediaPreflight tagName opt =
      .earlyReturn (some []) (some ({} : ResponsePagination)) none := by
  unfold recentMediaPreflight
  rw [show (validTagName tagName).2 = none from rfl]
  simp [h]

theorem recentMedia_shortCircuit_witness :
    recentMediaPreflight "a-b" none =
      .earlyReturn (some []) (some ({} : ResponsePagination)) none :=
  recentMedia_shortCircuit "a-b" none (by decide)

/-- C10: the client's stored `Response` slot is written exactly by a `Do`
call that passed the 200 check with a non-nil decode target; on transport
failure, on a non-200 status, or with a nil target the slot keeps its prior
value. -/
theorem response_slot_frame (c : Client) (transport : Except String HttpResp)
    (v : Bool) :
    (∀ msg, transport = .error msg → (Do c transport v).Response = c.Response) ∧
    (∀ resp, transport = .ok resp → resp.StatusCode ≠ 200 →
      (Do c transport v).Response = c.Response) ∧
    (∀ resp, transport = .ok resp → v = false →
      (Do c transport v).Response = c.Response) ∧
    (∀ resp, transport = .ok resp → resp.StatusCode = 200 → v = true →
      (Do c transport v).Response = some (decodeEnvelope resp)) := by
  refine ⟨?_, ?_, ?_, ?_⟩
  · rintro msg rfl
    simp [Do]
  · rintro resp rfl h
    rcases hcr : CheckResponse resp.StatusCode resp.Body with _ | e
    · exact absurd ((checkResponse_eq_none_iff _ _).mp hcr) h
    · simp [Do, hcr]
  · rintro resp rfl rfl
    rcases hcr : CheckResponse resp.StatusCode resp.Body with _ | e <;> simp [Do, hcr]
  · rintro resp rfl h200 rfl
    have hcr : CheckResponse resp.StatusCode resp.Body = none :=
      (checkResponse_eq_none_iff _ _).mpr h200
    simp [Do, hcr]

theorem response_slot_frame_witness :
    (Do {} (.error "connection reset") true).Response = none :=
  (response_slot_frame {} (.error "connection reset") true).1 "connection reset" rfl

theorem atoi_err_of_not_numeric (s : String)
    (h : isNumericLiteral s = false) : (atoi s).2 = some NumError.invalidNum := by
  unfold atoi
  unfold isNumericLiteral at h
  cases hs : s.data with
  | nil => simp [hs]
  | cons c cs =>
    rw [hs] at h
    simp only [hs]
    split_ifs with h1 h2 <;> simp_all <;>
      (obtain ⟨x, hx, hxd⟩ := h; simp_all)

/-- C8: `GetRatelimit` fails whenever either rate-limit header is absent or
not a numeric literal (an absent header reads as `""`, which is not
numeric), and on the spec's example headers it returns the pair
`(5000, 4999)` with no error. -/
theorem getRatelimit_spec :
    (∀ r : StoredResponse,
      isNumericLiteral (headerGet r.Response.Header "X-Ratelimit-Limit") = false →
        ((GetRatelimit r).2.isSome = true)) ∧
    (∀ r : StoredResponse,
      isNumericLiteral (headerGet r.Response.Header "X-Ratelimit-Remaining") = false →
        ((GetRatelimit r).2.isSome = true)) ∧
    GetRatelimit
        ⟨⟨200, [("X-Ratelimit-Limit", "5000"), ("X-Ratelimit-Remaining", "4999")],
          JsonDoc.empty⟩, none, none⟩ =
      ({ Limit := 5000, Remaining := 4999 }, none) := by
  refine ⟨?_, ?_, by decide⟩
  · intro r h
    have ha := atoi_err_of_not_numeric _ h
    simp [GetRatelimit, ha]
  · intro r h
    have ha := atoi_err_of_not_numeric _ h
    rcases h1 : (atoi (headerGet r.Response.Header "X-Ratelimit-Limit")).2 with _ | e <;>
      simp [GetRatelimit, h1, ha]

theorem getRatelimit_spec_witness :
    (GetRatelimit ⟨⟨200, [], JsonDoc.empty⟩, none, none⟩).2.isSome = true :=
  getRatelimit_spec.1 _ (by decide)

theorem valuesLookup_set_self (q : Values) (k v : String) :
    valuesLookup (valuesSet q k v) k = some [v] := by
  induction q with
  | nil => simp [valuesSet, valuesLookup]
  | cons p rest ih =>
    by_cases h : p.1 = k <;> simp [valuesSet, valuesLookup, h, ih]

theorem valuesLookup_set_ne (q : Values) (k v k2 : String) (h : k2 ≠ k) :
    valuesLookup (valuesSet q k v) k2 = valuesLookup q k2 := by
  induction q with
  | nil => simp [valuesSet, valuesLookup, Ne.symm h]
  | cons p rest ih =>
    by_cases hp : p.1 = k
    · simp [valuesSet, valuesLookup, hp, Ne.symm h]
    · simp [valuesSet, valuesLookup, hp, ih]

theorem valuesGet_set_self (q : Values) (k v : String) :
    valuesGet (valuesSet q k v) k = v := by
  simp [valuesGet, valuesLookup_set_self]

theorem valuesGet_set_ne (q : Values) (k v k2 : String) (h : k2 ≠ k) :
    valuesGet (valuesSet q k v) k2 = valuesGet q k2 := by
  simp [valuesGet, valuesLookup_set_ne _ _ _ _ h]

theorem mergeParam_lookup_ne (key cred k : String) (q : Values) (h : k ≠ key) :
    valuesLookup (mergeParam key cred q) k = valuesLookup q k := by
  unfold mergeParam
  split_ifs with hc
  · exact valuesLookup_set_ne _ _ _ _ h
  · rfl

theorem mergeParam_get_ne (key cred k : String) (q : Values) (h : k ≠ key) :
    valuesGet (mergeParam key cred q) k = valuesGet q k := by
  simp [valuesGet, mergeParam_lookup_ne _ _ _ _ h]

theorem mergeParam_of_nonempty (key cred : String) (q : Values)
    (h : valuesGet q key ≠ "") : mergeParam key cred q = q := by
  unfold mergeParam
  rw [if_neg]
  simp [h]

theorem mergeParam_of_noCred (key : String) (q : Values) :
    mergeParam key "" q = q := by
  simp [mergeParam]

theorem mergeParam_adds (key cred : String) (q : Values) (hc : cred ≠ "")
    (hq : valuesGet q key = "") : valuesGet (mergeParam key cred q) key = cred := by
  unfold mergeParam
  rw [if_pos ⟨hc, hq⟩]
  exact valuesGet_set_self q key cred

/-- C3 counterexample: with an access token configured and a caller URL that
already carries the `access_token` parameter (with an empty value, e.g.
`media?access_token=`), `NewRequest` does add/overwrite the parameter: the
caller's value is not left untouched, because the source tests
`q.Get("access_token") == ""`, which cannot distinguish an absent parameter
from a present-but-empty one. -/
theorem newRequestQuery_counterexample :
    (valuesLookup c3Query "access_token").isSome = true ∧
    valuesGet (newRequestQuery c3Client c3Query) "access_token" = "token123" ∧
    valuesLookup (newRequestQuery c3Client c3Query) "access_token" ≠
      valuesLookup c3Query "access_token" := by decide

/-- C3 amended: each of the three credential rules of `NewRequest` applies
independently: a configured credential is added exactly when the
caller-supplied URL carries no non-empty value under its key (Go's
`Values.Get` returns `""` both for an absent parameter and for one present
with an empty value); a parameter the caller set to a non-empty value is
left untouched, an unconfigured credential changes nothing under its key,
and parameters under any other key are never touched. -/
theorem newRequestQuery_merge (c : Client) (q : Values) :
    (valuesGet q "access_token" ≠ "" →
      valuesLookup (newRequestQuery c q) "access_token" =
        valuesLookup q "access_token") ∧
    (c.AccessToken = "" →
      valuesLookup (newRequestQuery c q) "access_token" =
        valuesLookup q "access_token") ∧
    (c.AccessToken ≠ "" → valuesGet q "access_token" = "" →
      valuesGet (newRequestQuery c q) "access_token" = c.AccessToken) ∧
    (valuesGet q "client_id" ≠ "" →
      valuesLookup (newRequestQuery c q) "client_id" = valuesLookup q "client_id") ∧
    (c.ClientID = "" →
      valuesLookup (newRequestQuery c q) "client_id" = valuesLookup q "client_id") ∧
    (c.ClientID ≠ "" → valuesGet q "client_id" = "" →
      valuesGet (newRequestQuery c q) "client_id" = c.ClientID) ∧
    (valuesGet q "client_secret" ≠ "" →
      valuesLookup (newRequestQuery c q) "client_secret" =
        valuesLookup q "client_secret") ∧
    (c.ClientSecret = "" →
      valuesLookup (newRequestQuery c q) "client_secret" =
        valuesLookup q "client_secret") ∧
    (c.ClientSecret ≠ "" → valuesGet q "client_secret" = "" →
      valuesGet (newRequestQuery c q) "client_secret" = c.ClientSecret) ∧
    (∀ k, k ≠ "access_token" → k ≠ "client_id" → k ≠ "client_secret" →
      valuesLookup (newRequestQuery c q) k = valuesLookup q k) := by
  have hat_ci : ("access_token" : String) ≠ "client_id" := by decide
  have hat_cs : ("access_token" : String) ≠ "client_secret" := by decide
  have hci_at : ("client_id" : String) ≠ "access_token" := by decide
  have hci_cs : ("client_id" : String) ≠ "client_secret" := by decide
  have hcs_at : ("client_secret" : String) ≠ "access_token" := by decide
  have hcs_ci : ("client_secret" : String) ≠ "client_id" := by decide
  refine ⟨?_, ?_, ?_, ?_, ?_, ?_, ?_, ?_, ?_, ?_⟩
  · intro h
    unfold newRequestQuery
    rw [mergeParam_lookup_ne _ _ _ _ hat_cs, mergeParam_lookup_ne _ _ _ _ hat_ci,
      mergeParam_of_nonempty _ _ _ h]
  · intro h
    unfold newRequestQuery
    rw [mergeParam_lookup_ne _ _ _ _ hat_cs, mergeParam_lookup_ne _ _ _ _ hat_ci,
      h, mergeParam_of_noCred]
  · intro hc hq
    unfold newRequestQuery
    rw [mergeParam_get_ne _ _ _ _ hat_cs, mergeParam_get_ne _ _ _ _ hat_ci,
      mergeParam_adds _ _ _ hc hq]
  · intro h
    unfold newRequestQuery
    have h1 : valuesGet (mergeParam "access_token" c.AccessToken q) "client_id" ≠ "" := by
      rw [mergeParam_get_ne _ _ _ _ hci_at]; exact h
    rw [mergeParam_lookup_ne _ _ _ _ hci_cs, mergeParam_of_nonempty _ _ _ h1,
      mergeParam_lookup_ne _ _ _ _ hci_at]
  · intro h
    unfold newRequestQuery
    rw [mergeParam_lookup_ne _ _ _ _ hci_cs, h, mergeParam_of_noCred,
      mergeParam_lookup_ne _ _ _ _ hci_at]
  · intro hc hq
    unfold newRequestQuery
    have h1 : valuesGet (mergeParam "access_token" c.AccessToken q) "client_id" = "" := by
      rw [mergeParam_get_ne _ _ _ _ hci_at]; exact hq
    rw [mergeParam_get_ne _ _ _ _ hci_cs, mergeParam_adds _ _ _ hc h1]
  · intro h
    unfold newRequestQuery
    have h1 : valuesGet (mergeParam "client_id" c.ClientID
        (mergeParam "access_token" c.AccessToken q)) "client_secret" ≠ "" := by
      rw [mergeParam_get_ne _ _ _ _ hcs_ci, mergeParam_get_ne _ _ _ _ hcs_at]
      exact h
    rw [mergeParam_of_nonempty _ _ _ h1, mergeParam_lookup_ne _ _ _ _ hcs_ci,
      mergeParam_lookup_ne _ _ _ _ hcs_at]
  · intro h
    unfold newRequestQuery
    rw [h, mergeParam_of_noCred, mergeParam_lookup_ne _ _ _ _ hcs_ci,
      mergeParam_lookup_ne _ _ _ _ hcs_at]
  · intro hc hq
    unfold newRequestQuery
    have h1 : valuesGet (mergeParam "client_id" c.ClientID
        (mergeParam "access_token" c.AccessToken q)) "client_secret" = "" := by
      rw [mergeParam_get_ne _ _ _ _ hcs_ci, mergeParam_get_ne _ _ _ _ hcs_at]
      exact hq
    rw [mergeParam_adds _ _ _ hc h1]
  · intro k hk1 hk2 hk3
    unfold newRequestQuery
    rw [mergeParam_lookup_ne _ _ _ _ hk3, mergeParam_lookup_ne _ _ _ _ hk2,
      mergeParam_lookup_ne _ _ _ _ hk1]

theorem newRequestQuery_merge_witness :
    valuesGet (newRequestQuery { AccessToken := "tok" } []) "access_token" = "tok" :=
  (newRequestQuery_merge { AccessToken := "tok" } []).2.2.1 (by decide) rfl

theorem sha256Block_length (hs block : List Nat) :
    (sha256Block hs block).length = 8 := rfl

theorem foldl_sha256Block_length (blocks : List (List Nat)) (hs : List Nat)
    (h : hs.length = 8) : (blocks.foldl sha256Block hs).length = 8 := by
  induction blocks generalizing hs with
  | nil => simpa
  | cons b bs ih => exact ih _ (sha256Block_length _ _)

theorem flatten_word32_length (l : List Nat) :
    ((l.map word32ToBytes).flatten).length = 4 * l.length := by
  induction l with
  | nil => simp
  | cons x xs ih =>
    simp only [List.map_cons, List.flatten_cons, List.length_append, ih,
      List.length_cons, word32ToBytes]
    simp
    omega

theorem sha256_length (msg : List Nat) : (sha256 msg).length = 32 := by
  show ((((chunks64 (sha256Pad msg)).foldl sha256Block h256init).map
    word32ToBytes).flatten).length = 32
  rw [flatten_word32_length,
    foldl_sha256Block_length (chunks64 (sha256Pad msg)) h256init (by rfl)]

theorem hmacSha256_length (key msg : List Nat) :
    (hmacSha256 key msg).length = 32 :=
  sha256_length _

theorem hexEncodeToString_length (bs : List Nat) :
    (hexEncodeToString bs).length = 2 * bs.length := by
  show ((bs.map (fun b => [hexDigit (b / 16), hexDigit (b % 16)])).flatten).length =
    2 * bs.length
  induction bs with
  | nil => simp
  | cons b tl ih =>
    simp only [List.map_cons, List.flatten_cons, List.length_append, ih,
      List.length_cons]
    simp
    omega

theorem hmacPaddedKey_append_zero (key : List Nat) (h : key.length ≤ 63) :
    hmacPaddedKey (key ++ [0]) = hmacPaddedKey key := by
  have h1 : hmacKeyBase key = key := by
    unfold hmacKeyBase
    rw [if_neg]
    omega
  have h2 : hmacKeyBase (key ++ [0]) = key ++ [0] := by
    unfold hmacKeyBase
    rw [if_neg]
    simp
    omega
  unfold hmacPaddedKey
  rw [h1, h2, List.append_assoc, List.length_append]
  congr 1
  rw [show (64 - key.length) = (64 - (key.length + List.length [0])) + 1 by simp; omega]
  rw [List.replicate_succ]
  rfl

/-- C5 counterexample: the signed token is not injective in the secret —
appending a zero byte to a (short) secret leaves the zero-padded HMAC key,
hence the whole token, unchanged: `c5a` and `c5b` have different secrets and
the same forwarded address, yet identical tokens. -/
theorem computeXInstaForwardedFor_counterexample :
    c5a.ClientSecret ≠ c5b.ClientSecret ∧
    c5a.XInstaForwardedFor = c5b.XInstaForwardedFor ∧
    ComputeXInstaForwardedFor c5a = ComputeXInstaForwardedFor c5b := by
  refine ⟨by decide, rfl, ?_⟩
  have hb : strToBytes c5b.ClientSecret = strToBytes c5a.ClientSecret ++ [0] := by
    decide
  have hlen : (strToBytes c5a.ClientSecret).length ≤ 63 := by decide
  unfold ComputeXInstaForwardedFor
  rw [if_neg (by decide : ¬ c5a.XInstaForwardedFor = ""),
    if_neg (by decide : ¬ c5b.XInstaForwardedFor = "")]
  rw [show c5b.XInstaForwardedFor = c5a.XInstaForwardedFor from rfl, hb]
  unfold hmacSha256
  rw [hmacPaddedKey_append_zero _ hlen]

/-- C5 amended: the signed token is a pure deterministic function of the
configured forwarded address and application secret — identical inputs give
identical output of the form `<address>|<hex-encoded HMAC-SHA256>` — and
changing the address always changes the output; changing the secret,
however, does not always change the output (HMAC zero-pads short keys, see
the counterexample). -/
theorem computeXInstaForwardedFor_amended :
    (∀ c1 c2 : Client, c1.XInstaForwardedFor = c2.XInstaForwardedFor →
      c1.ClientSecret = c2.ClientSecret →
      ComputeXInstaForwardedFor c1 = ComputeXInstaForwardedFor c2) ∧
    (∀ c : Client, c.XInstaForwardedFor ≠ "" →
      ComputeXInstaForwardedFor c =
        c.XInstaForwardedFor ++ ("|" ++ hexEncodeToString (hmacSha256
          (strToBytes c.ClientSecret) (strToBytes c.XInstaForwardedFor)))) ∧
    (∀ c1 c2 : Client, c1.XInstaForwardedFor ≠ c2.XInstaForwardedFor →
      ComputeXInstaForwardedFor c1 ≠ ComputeXInstaForwardedFor c2) := by
  refine ⟨?_, ?_, ?_⟩
  · intro c1 c2 ha hs
    unfold ComputeXInstaForwardedFor
    rw [ha, hs]
  · intro c h
    unfold ComputeXInstaForwardedFor
    rw [if_neg h]
  · intro c1 c2 h
    by_cases h1 : c1.XInstaForwardedFor = ""
    · by_cases h2 : c2.XInstaForwardedFor = ""
      · exact absurd (h1.trans h2.symm) h
      · unfold ComputeXInstaForwardedFor
        rw [if_pos h1, if_neg h2]
        intro he
        have hl := congrArg String.length he
        rw [String.length_append, String.length_append,
          hexEncodeToString_length, hmacSha256_length,
          show ("" : String).length = 0 from rfl,
          show ("|" : String).length = 1 from rfl] at hl
        omega
    · by_cases h2 : c2.XInstaForwardedFor = ""
      · unfold ComputeXInstaForwardedFor
        rw [if_neg h1, if_pos h2]
        intro he
        have hl := congrArg String.length he
        rw [String.length_append, String.length_append,
          hexEncodeToString_length, hmacSha256_length,
          show ("" : String).length = 0 from rfl,
          show ("|" : String).length = 1 from rfl] at hl
        omega
      · unfold ComputeXInstaForwardedFor
        rw [if_neg h1, if_neg h2]
        intro he
        have hd := congrArg String.data he
        rw [String.data_append, String.data_append] at hd
        have hlen :
            ("|" ++ hexEncodeToString (hmacSha256 (strToBytes c1.ClientSecret)
              (strToBytes c1.XInstaForwardedFor))).length =
            ("|" ++ hexEncodeToString (hmacSha256 (strToBytes c2.ClientSecret)
              (strToBytes c2.XInstaForwardedFor))).length := by
          rw [String.length_append, String.length_append,
            hexEncodeToString_length, hexEncodeToString_length,
            hmacSha256_length, hmacSha256_length]
        exact h (String.ext (List.append_inj' hd hlen).1)

theorem computeXInstaForwardedFor_amended_witness :
    ComputeXInstaForwardedFor { XInstaForwardedFor := "a" } ≠
      ComputeXInstaForwardedFor { XInstaForwardedFor := "b" } :=
  computeXInstaForwardedFor_amended.2.2 _ _ (by decide)

end Instagram
